import Mathlib

/-!
Verification development for the dialog-routing core of the
`langgraph-multi-agent-travel-sample` repository (`src/travel_agent/app.py`).

The embedding below translates the pure routing and state-bookkeeping
functions of the Python source into Lean: the conversation state, the
dialog-stack reducer `update_dialog_stack`, the per-assistant routers
(`route_update_flight`, `route_book_car_rental`, `route_book_hotel`,
`route_book_excursion`, `route_primary_assistant`, `route_to_workflow`),
the entry/exit nodes (`create_entry_node`, `pop_dialog_state`), the
multi-intent disambiguator (`handle_multiple_tool_calls`), the assistant
invoker retry loop (`Assistant_call`), and the auto-approve interrupt
configuration.  Fallible Python code (routers that may raise) is embedded
with `Except`; the LLM is modelled as an oracle supplying a sequence of
result messages.
-/

/-- A tool call requested by a model message: a tool name and an opaque
call identifier (arguments are irrelevant to routing and omitted). -/
structure ToolCall where
  name : String
  id : String
deriving DecidableEq

instance : Inhabited ToolCall := ⟨⟨"", ""⟩⟩

/-- Message content as produced by the model: either a plain string or a
list of content blocks, of which only the optional text of the first block
matters to the code (`result.content[0].get("text")`).  A block without a
`text` key is `none`. -/
inductive MsgContent where
  | str (s : String)
  | blocks (l : List (Option String))
deriving DecidableEq

instance : Inhabited MsgContent := ⟨MsgContent.str ""⟩

/-- A conversation message: role, content, requested tool calls and, for
tool-result messages, the id of the tool call being answered. -/
structure Message where
  role : String
  content : MsgContent
  tool_calls : List ToolCall
  tool_call_id : Option String
deriving DecidableEq

instance : Inhabited Message := ⟨⟨"", MsgContent.str "", [], none⟩⟩

/-- The `State` TypedDict of `app.py`: message history, resolved user
info, and the dialog stack. -/
structure AgentState where
  messages : List Message
  user_info : String
  dialog_state : List String
deriving DecidableEq

/-- The dict a graph node returns: new messages to append and an optional
dialog-state operation (`none` when the key is absent, which the reducer
treats as a no-op). -/
structure NodeUpdate where
  messages : List Message
  dialog_state : Option String
deriving DecidableEq

/-- `ToolMessage(content=..., tool_call_id=...)` from the source. -/
def ToolMessage (content : String) (tool_call_id : String) : Message :=
  { role := "tool", content := MsgContent.str content, tool_calls := [],
    tool_call_id := some tool_call_id }

/-- `state["messages"][-1]` — the last message of the history.  Python
raises `IndexError` on an empty history; every use below is guarded
(by `tools_condition` or by a theorem hypothesis), so the default value
is never semantically reached. -/
def lastMessage (state : AgentState) : Message :=
  (state.messages.getLast?).getD default

/-- The graph-library terminal route constant `END`. -/
def END : String := "__end__"

/-- The route name `tools_condition` returns when tool calls are pending. -/
def TOOLS : String := "tools"

/-- The literal `"pop"` recognised by the dialog-stack reducer. -/
def POP : String := "pop"

/-- `CompleteOrEscalate.__name__`. -/
def CompleteOrEscalate_name : String := "CompleteOrEscalate"

/-- `update_dialog_stack` (app.py lines 43-49): `None` is a no-op,
`"pop"` removes the last element (`left[:-1]`), anything else appends. -/
def update_dialog_stack (left : List String) (right : Option String) : List String :=
  match right with
  | none => left
  | some r => if r = "pop" then left.dropLast else left ++ [r]

/-- `langgraph.prebuilt.tools_condition`: raises when the state has no
messages, returns `"tools"` when the last message has at least one tool
call, `END` otherwise. -/
def tools_condition (state : AgentState) : Except String String :=
  match state.messages.getLast? with
  | none => Except.error "No messages found in input state to tool_edge"
  | some ai_message =>
      if ai_message.tool_calls.length > 0 then Except.ok TOOLS else Except.ok END

/-- `[t.name for t in update_flight_safe_tools]` — the flight assistant's
safe (read-only) tool names. -/
def update_flight_safe_toolnames : List String := [r"search_flights"]

/-- `[t.name for t in book_car_rental_safe_tools]`. -/
def book_car_rental_safe_toolnames : List String := [r"search_car_rentals"]

/-- `[t.name for t in book_hotel_safe_tools]`. -/
def book_hotel_safe_toolnames : List String := [r"search_hotels"]

/-- `[t.name for t in book_excursion_safe_tools]`. -/
def book_excursion_safe_toolnames : List String := [r"search_trip_recommendations"]

/-- `route_update_flight` (app.py lines 434-447). -/
def route_update_flight (state : AgentState) : Except String String :=
  match tools_condition state with
  | Except.error e => Except.error e
  | Except.ok route =>
    if route = END then Except.ok END
    else
      let tool_calls := (lastMessage state).tool_calls
      let did_cancel := tool_calls.any (fun tc => tc.name == CompleteOrEscalate_name)
      if did_cancel then Except.ok "leave_skill"
      else if tool_calls.all (fun tc => update_flight_safe_toolnames.contains tc.name) then
        Except.ok "update_flight_safe_tools"
      else Except.ok "update_flight_sensitive_tools"

/-- `route_book_car_rental` (app.py lines 502-515). -/
def route_book_car_rental (state : AgentState) : Except String String :=
  match tools_condition state with
  | Except.error e => Except.error e
  | Except.ok route =>
    if route = END then Except.ok END
    else
      let tool_calls := (lastMessage state).tool_calls
      let did_cancel := tool_calls.any (fun tc => tc.name == CompleteOrEscalate_name)
      if did_cancel then Except.ok "leave_skill"
      else if tool_calls.all (fun tc => book_car_rental_safe_toolnames.contains tc.name) then
        Except.ok "book_car_rental_safe_tools"
      else Except.ok "book_car_rental_sensitive_tools"

/-- `route_book_hotel` (app.py lines 547-560). -/
def route_book_hotel (state : AgentState) : Except String String :=
  match tools_condition state with
  | Except.error e => Except.error e
  | Except.ok route =>
    if route = END then Except.ok END
    else
      let tool_calls := (lastMessage state).tool_calls
      let did_cancel := tool_calls.any (fun tc => tc.name == CompleteOrEscalate_name)
      if did_cancel then Except.ok "leave_skill"
      else if tool_calls.all (fun tc => book_hotel_safe_toolnames.contains tc.name) then
        Except.ok "book_hotel_safe_tools"
      else Except.ok "book_hotel_sensitive_tools"

/-- `route_book_excursion` (app.py lines 588-601). -/
def route_book_excursion (state : AgentState) : Except String String :=
  match tools_condition state with
  | Except.error e => Except.error e
  | Except.ok route =>
    if route = END then Except.ok END
    else
      let tool_calls := (lastMessage state).tool_calls
      let did_cancel := tool_calls.any (fun tc => tc.name == CompleteOrEscalate_name)
      if did_cancel then Except.ok "leave_skill"
      else if tool_calls.all (fun tc => book_excursion_safe_toolnames.contains tc.name) then
        Except.ok "book_excursion_safe_tools"
      else Except.ok "book_excursion_sensitive_tools"

/-- The `specialized_tools` list of `route_primary_assistant`: the
`__name__`s of the four hand-off request classes. -/
def specialized_tools : List String :=
  [r"ToFlightBookingAssistant", r"ToBookCarRental",
   r"ToHotelBookingAssistant", r"ToBookExcursion"]

/-- `route_primary_assistant` (app.py lines 689-703): END when no tool
calls, the multi-intent node when any hand-off class is requested, the
primary tool node otherwise; the final `raise ValueError("Invalid route")`
is embedded as an error result. -/
def route_primary_assistant (state : AgentState) : Except String String :=
  match tools_condition state with
  | Except.error e => Except.error e
  | Except.ok route =>
    if route = END then Except.ok END
    else
      let tool_calls := (lastMessage state).tool_calls
      if tool_calls.isEmpty then Except.error "Invalid route"
      else if tool_calls.any (fun tc => specialized_tools.contains tc.name) then
        Except.ok "handle_multiple_tool_calls"
      else Except.ok "primary_assistant_tools"

/-- `route_to_workflow` (app.py lines 741-754): empty/absent dialog
stack routes to the primary assistant, otherwise to the top of stack
(`dialog_state[-1]`). -/
def route_to_workflow (state : AgentState) : String :=
  match state.dialog_state.getLast? with
  | none => "primary_assistant"
  | some top => top

/-- The handoff announcement text shared (verbatim) by `create_entry_node`
and the four branches of `handle_multiple_tool_calls`, with the assistant
name substituted. -/
def handoff_ack_text (assistant_name : String) : String :=
  "The assistant is now the " ++ assistant_name ++
    ". Reflect on the above conversation between the host assistant and the user." ++
    " The user\x27s intent is unsatisfied. Use the provided tools to assist the user. Remember, you are " ++
    assistant_name ++
    "," ++
    " and the booking, update, other other action is not complete until after you have successfully invoked the appropriate tool." ++
    " If the user changes their mind or needs help for other tasks, call the CompleteOrEscalate function to let the primary host assistant take control." ++
    " Do not mention who you are - just act as the proxy for the assistant."

/-- `create_entry_node(assistant_name, new_dialog_state)` (app.py lines
368-385): the returned node emits one tool-result message paired to the
first tool call of the last message, plus a dialog-state push. -/
def create_entry_node (assistant_name : String) (new_dialog_state : String) :
    AgentState → NodeUpdate := fun state =>
  let tool_call_id := ((lastMessage state).tool_calls.headD default).id
  { messages := [ToolMessage (handoff_ack_text assistant_name) tool_call_id],
    dialog_state := some new_dialog_state }

/-- The fixed announcement emitted by `pop_dialog_state`. -/
def resume_text : String :=
  "Resuming dialog with the host assistant. Please reflect on the past conversation and assist the user as needed."

/-- `pop_dialog_state` (app.py lines 460-478), the `leave_skill` node:
one resume tool-result paired to the FIRST pending tool call when there is
one, none otherwise; always a dialog-state `"pop"`. -/
def pop_dialog_state (state : AgentState) : NodeUpdate :=
  let messages : List Message :=
    match (lastMessage state).tool_calls with
    | [] => []
    | tc :: _ => [ToolMessage resume_text tc.id]
  { dialog_state := some POP, messages := messages }

/-- One iteration of the loop body of `handle_multiple_tool_calls`
(app.py lines 619-671): the accumulator carries the messages built so far
and the `next_route` option (set only by the first matching hand-off). -/
def hmtc_step (acc : List Message × Option String) (tool_call : ToolCall) :
    List Message × Option String :=
  if tool_call.name == "ToFlightBookingAssistant" then
    (acc.1 ++ [ToolMessage (handoff_ack_text ("Flight Updates & Booking Assistant")) tool_call.id],
     match acc.2 with | none => some "update_flight" | some r => some r)
  else if tool_call.name == "ToBookCarRental" then
    (acc.1 ++ [ToolMessage (handoff_ack_text ("Car Rental Assistant")) tool_call.id],
     match acc.2 with | none => some "book_car_rental" | some r => some r)
  else if tool_call.name == "ToHotelBookingAssistant" then
    (acc.1 ++ [ToolMessage (handoff_ack_text ("Hotel Booking Assistant")) tool_call.id],
     match acc.2 with | none => some "book_hotel" | some r => some r)
  else if tool_call.name == "ToBookExcursion" then
    (acc.1 ++ [ToolMessage (handoff_ack_text ("Trip Recommendation Assistant")) tool_call.id],
     match acc.2 with | none => some "book_excursion" | some r => some r)
  else acc

/-- `handle_multiple_tool_calls` (app.py lines 612-676). -/
def handle_multiple_tool_calls (state : AgentState) : NodeUpdate :=
  let tool_calls := (lastMessage state).tool_calls
  let acc := tool_calls.foldl hmtc_step ([], none)
  { messages := acc.1, dialog_state := acc.2 }

/-- Whether a tool-call name is one of the four hand-off request classes
handled by `handle_multiple_tool_calls`. -/
def is_handoff (n : String) : Bool := specialized_tools.contains n

/-- The assistant display name announced for each hand-off class. -/
def handoff_label (n : String) : String :=
  if n == "ToFlightBookingAssistant" then "Flight Updates & Booking Assistant"
  else if n == "ToBookCarRental" then "Car Rental Assistant"
  else if n == "ToHotelBookingAssistant" then "Hotel Booking Assistant"
  else if n == "ToBookExcursion" then "Trip Recommendation Assistant"
  else ""

/-- The destination node recorded as `next_route` for each hand-off
class. -/
def handoff_destination (n : String) : Option String :=
  if n == "ToFlightBookingAssistant" then some "update_flight"
  else if n == "ToBookCarRental" then some "book_car_rental"
  else if n == "ToHotelBookingAssistant" then some "book_hotel"
  else if n == "ToBookExcursion" then some "book_excursion"
  else none

/-- The acknowledgment tool-result message produced for a hand-off call. -/
def handoff_ack (tc : ToolCall) : Message :=
  ToolMessage (handoff_ack_text (handoff_label tc.name)) tc.id

/-- The corrective user message `("user", "Respond with a real output.")`
appended by the `Assistant` retry loop. -/
def corrective_message : Message :=
  { role := "user", content := MsgContent.str ("Respond with a real output."),
    tool_calls := [], tool_call_id := none }

/-- Python truthiness of `result.content`: the empty string and the empty
block list are falsy. -/
def content_falsy : MsgContent → Bool
  | MsgContent.str s => s.isEmpty
  | MsgContent.blocks l => l.isEmpty

/-- `isinstance(result.content, list)`. -/
def content_is_list : MsgContent → Bool
  | MsgContent.str _ => false
  | MsgContent.blocks _ => true

/-- `not result.content[0].get("text")`: the first block has no text key
or an empty text.  Python would raise on an empty block list, but the
call site is shielded by the preceding truthiness test, so the value
returned for `[]` is unreachable. -/
def first_text_falsy : MsgContent → Bool
  | MsgContent.str _ => false
  | MsgContent.blocks [] => true
  | MsgContent.blocks (b :: _) => (b.getD "").isEmpty

/-- The retry condition of `Assistant.__call__` (app.py lines 84-88):
no tool calls and no usable text content. -/
def degenerate (result : Message) : Bool :=
  result.tool_calls.isEmpty &&
    (content_falsy result.content ||
      (content_is_list result.content && first_text_falsy result.content))

/-- `Assistant.__call__` (app.py lines 80-93), with the bound runnable
modelled as an oracle: `results` is the sequence of messages successive
`self.runnable.invoke(state)` calls return.  A degenerate result appends
the corrective user message to a rebuilt local copy of the state and
retries; the first non-degenerate result is returned as the node update.
`none` models the case where the oracle is exhausted while the Python
loop would still be spinning. -/
def Assistant_call : List Message → AgentState → Option NodeUpdate
  | [], _ => none
  | result :: rest, state =>
    if degenerate result then
      Assistant_call rest
        { state with messages := state.messages ++ [corrective_message] }
    else some { messages := [result], dialog_state := none }

/-- Python `str.lower`, written as structural recursion over the
character list so that concrete values reduce. -/
def py_lower (s : String) : String := String.mk (s.data.map Char.toLower)

/-- `AUTO_APPROVE_SENSITIVE` (app.py lines 760-765) as a function of the
raw environment value (`none` when the variable is unset; `os.getenv`
defaults it to `"true"`). -/
def auto_approve_sensitive (env : Option String) : Bool :=
  ([r"1", r"true", r"yes", r"y"] : List String).contains (py_lower (env.getD "true"))

/-- The four sensitive-tool node names. -/
def sensitive_tool_nodes : List String :=
  [r"update_flight_sensitive_tools", r"book_car_rental_sensitive_tools",
   r"book_hotel_sensitive_tools", r"book_excursion_sensitive_tools"]

/-- `interrupt_nodes` (app.py lines 766-771): the pause-point list passed
to `builder.compile(interrupt_before=...)`. -/
def interrupt_nodes (auto_approve : Bool) : List String :=
  if auto_approve then [] else sensitive_tool_nodes

/-- The graph engine's interrupt contract (spec section 4.6, external
collaborator): execution suspends before a node exactly when the node is
named in the `interrupt_before` list given at compilation. -/
def suspends_before (auto_approve : Bool) (node : String) : Bool :=
  (interrupt_nodes auto_approve).contains node

/-! ## Helper lemmas -/

lemma lastMessage_eq {state : AgentState} {m : Message}
    (hm : state.messages.getLast? = some m) : lastMessage state = m := by
  simp [lastMessage, hm]

lemma tools_condition_of_ne {state : AgentState} {m : Message}
    (hm : state.messages.getLast? = some m) (hnz : m.tool_calls ≠ []) :
    tools_condition state = Except.ok TOOLS := by
  simp [tools_condition, hm, List.length_pos, hnz]

lemma tools_condition_of_nil {state : AgentState} {m : Message}
    (hm : state.messages.getLast? = some m) (hz : m.tool_calls = []) :
    tools_condition state = Except.ok END := by
  simp [tools_condition, hm, hz]

/-! ## Claims -/

/-- C3: for every state reaching `route_to_workflow`, an empty (or absent)
`dialog_state` routes to `"primary_assistant"`; otherwise the route is
exactly the top (last element) of the dialog-state stack. -/
theorem route_to_workflow_spec (state : AgentState) :
    (state.dialog_state = [] → route_to_workflow state = "primary_assistant") ∧
    (∀ top, state.dialog_state.getLast? = some top → route_to_workflow state = top) := by
  constructor
  · intro h
    simp [route_to_workflow, h]
  · intro top h
    simp [route_to_workflow, h]

/-- Witness for C3 at a concrete state whose dialog stack tops with
`"book_hotel"`. -/
theorem route_to_workflow_spec_witness :
    route_to_workflow ⟨[], "", ["update_flight", "book_hotel"]⟩ = "book_hotel" :=
  (route_to_workflow_spec ⟨[], "", ["update_flight", "book_hotel"]⟩).2 "book_hotel" (by decide)

/-- C4: the dialog-stack reducer laws — `None` is a no-op; pushing a
non-`"pop"` name appends it and grows the stack by exactly 1; `"pop"`
removes the last element (shrinking a non-empty stack by exactly 1); a
push followed by a pop is the identity, so a hand-off (the entry node's
push) followed by `leave_skill` leaves the depth unchanged. -/
theorem update_dialog_stack_laws (l : List String) (s : String)
    (assistant_name : String) (st : AgentState) (hs : s ≠ "pop") :
    update_dialog_stack l none = l ∧
    update_dialog_stack l (some s) = l ++ [s] ∧
    (update_dialog_stack l (some s)).length = l.length + 1 ∧
    update_dialog_stack l (some POP) = l.dropLast ∧
    (l ≠ [] → (update_dialog_stack l (some POP)).length + 1 = l.length) ∧
    update_dialog_stack (update_dialog_stack l (some s)) (some POP) = l ∧
    (create_entry_node assistant_name s st).dialog_state = some s := by
  refine ⟨rfl, ?_, ?_, ?_, ?_, ?_, rfl⟩
  · simp [update_dialog_stack, hs]
  · simp [update_dialog_stack, hs]
  · simp [update_dialog_stack, POP]
  · intro h
    have hpos : 0 < l.length := List.length_pos.mpr h
    simp [update_dialog_stack, POP]
    omega
  · simp [update_dialog_stack, hs, POP]

/-- Witness for C4: pushing `"update_flight"` onto `["assistant"]` and
popping it returns the original stack. -/
theorem update_dialog_stack_laws_witness :
    update_dialog_stack ["assistant"] (some "update_flight") = ["assistant", "update_flight"] ∧
    update_dialog_stack (update_dialog_stack ["assistant"] (some "update_flight")) (some POP) =
      ["assistant"] :=
  ⟨(update_dialog_stack_laws ["assistant"] "update_flight" "n" ⟨[], "", []⟩ (by decide)).2.1,
   (update_dialog_stack_laws ["assistant"] "update_flight" "n" ⟨[], "", []⟩ (by decide)).2.2.2.2.2.1⟩

/-- C6: the `leave_skill` node emits exactly one tool-result message —
paired to the id of the FIRST tool call of the last message — when that
message has pending tool calls, and zero messages otherwise; its update
always carries the dialog-state `"pop"`; calls after the first get no
acknowledgment (at most one message is ever emitted). -/
theorem pop_dialog_state_spec (state : AgentState) (m : Message)
    (hm : state.messages.getLast? = some m) :
    (m.tool_calls = [] → (pop_dialog_state state).messages = []) ∧
    (∀ tc rest, m.tool_calls = tc :: rest →
      (pop_dialog_state state).messages = [ToolMessage resume_text tc.id]) ∧
    (pop_dialog_state state).messages.length ≤ 1 ∧
    (pop_dialog_state state).dialog_state = some POP := by
  have hlm := lastMessage_eq hm
  refine ⟨?_, ?_, ?_, rfl⟩
  · intro h
    simp [pop_dialog_state, hlm, h]
  · intro tc rest h
    simp [pop_dialog_state, hlm, h]
  · cases h : m.tool_calls with
    | nil => simp [pop_dialog_state, hlm, h]
    | cons tc rest => simp [pop_dialog_state, hlm, h]

/-- Witness for C6 at a state whose last message carries two parallel
tool calls: only the first (`"id1"`) is acknowledged. -/
theorem pop_dialog_state_spec_witness :
    (pop_dialog_state ⟨[⟨"ai", MsgContent.str "", [⟨"CompleteOrEscalate", "id1"⟩, ⟨"search_flights", "id2"⟩], none⟩], "", ["update_flight"]⟩).messages =
      [ToolMessage resume_text "id1"] :=
  (pop_dialog_state_spec
      ⟨[⟨"ai", MsgContent.str "", [⟨"CompleteOrEscalate", "id1"⟩, ⟨"search_flights", "id2"⟩], none⟩], "", ["update_flight"]⟩
      ⟨"ai", MsgContent.str "", [⟨"CompleteOrEscalate", "id1"⟩, ⟨"search_flights", "id2"⟩], none⟩ rfl).2.1
    ⟨"CompleteOrEscalate", "id1"⟩ [⟨"search_flights", "id2"⟩] rfl

/-- C9: with the auto-approve flag enabled the interrupt-before list
passed to graph compilation is empty — no node, sensitive or safe, ever
suspends; with it disabled the list is exactly the four sensitive-tool
nodes. -/
theorem auto_approve_interrupt_spec (env : Option String) :
    (auto_approve_sensitive env = true →
      interrupt_nodes (auto_approve_sensitive env) = [] ∧
      ∀ node, suspends_before (auto_approve_sensitive env) node = false) ∧
    (auto_approve_sensitive env = false →
      interrupt_nodes (auto_approve_sensitive env) = sensitive_tool_nodes ∧
      ∀ node, suspends_before (auto_approve_sensitive env) node = sensitive_tool_nodes.contains node) := by
  constructor
  · intro h
    rw [h]
    exact ⟨rfl, fun node => rfl⟩
  · intro h
    rw [h]
    exact ⟨rfl, fun node => rfl⟩

/-- Witness for C9: the unset variable defaults to auto-approve with no
pause points; the value `"false"` yields exactly the four sensitive-tool
pause points. -/
theorem auto_approve_interrupt_spec_witness :
    interrupt_nodes (auto_approve_sensitive none) = [] ∧
    interrupt_nodes (auto_approve_sensitive (some "false")) = sensitive_tool_nodes :=
  ⟨((auto_approve_interrupt_spec none).1 (by decide)).1,
   ((auto_approve_interrupt_spec (some "false")).2 (by decide)).1⟩

/-- C10: popping an empty dialog stack is a silent no-op: the reducer
maps `([], "pop")` to `[]`, so on a state whose stack is already empty
the `leave_skill` node's pop leaves the stack empty rather than failing. -/
theorem pop_empty_stack_noop (state : AgentState) (m : Message)
    (_hm : state.messages.getLast? = some m) (hs : state.dialog_state = []) :
    update_dialog_stack [] (some POP) = [] ∧
    (pop_dialog_state state).dialog_state = some POP ∧
    update_dialog_stack state.dialog_state (pop_dialog_state state).dialog_state = [] := by
  refine ⟨rfl, rfl, ?_⟩
  simp [update_dialog_stack, pop_dialog_state, POP, hs]

/-- Witness for C10 at a concrete state with an empty dialog stack. -/
theorem pop_empty_stack_noop_witness :
    update_dialog_stack ([] : List String)
      (pop_dialog_state ⟨[⟨"ai", MsgContent.str "ok", [], none⟩], "", []⟩).dialog_state = [] := by
  have h := pop_empty_stack_noop ⟨[⟨"ai", MsgContent.str "ok", [], none⟩], "", []⟩
    ⟨"ai", MsgContent.str "ok", [], none⟩ rfl rfl
  exact h.2.2

/-- C1: for each of the four specialized-assistant routers, whenever the
last message has at least one tool call and any of them is named
`CompleteOrEscalate`, the route is `"leave_skill"` — escalation wins over
any other simultaneous (safe or sensitive) tool call. -/
theorem routers_escalate_wins (state : AgentState) (m : Message)
    (hm : state.messages.getLast? = some m)
    (hnz : m.tool_calls ≠ [])
    (hesc : ∃ tc ∈ m.tool_calls, tc.name = CompleteOrEscalate_name) :
    route_update_flight state = Except.ok "leave_skill" ∧
    route_book_car_rental state = Except.ok "leave_skill" ∧
    route_book_hotel state = Except.ok "leave_skill" ∧
    route_book_excursion state = Except.ok "leave_skill" := by
  have hlm := lastMessage_eq hm
  have hroute := tools_condition_of_ne hm hnz
  have hany : m.tool_calls.any (fun tc => tc.name == CompleteOrEscalate_name) = true := by
    rcases hesc with ⟨tc, htc, hname⟩
    exact List.any_eq_true.mpr ⟨tc, htc, by simp [hname]⟩
  refine ⟨?_, ?_, ?_, ?_⟩ <;>
    simp [route_update_flight, route_book_car_rental, route_book_hotel,
      route_book_excursion, hroute, hlm, hany, TOOLS, END]

/-- Witness for C1: a message carrying both a safe search call and a
`CompleteOrEscalate` call routes every specialized router to
`"leave_skill"`. -/
theorem routers_escalate_wins_witness :
    route_update_flight
      ⟨[⟨"ai", MsgContent.str "", [⟨"search_flights", "a"⟩, ⟨"CompleteOrEscalate", "b"⟩], none⟩], "", []⟩ =
      Except.ok "leave_skill" :=
  (routers_escalate_wins
      ⟨[⟨"ai", MsgContent.str "", [⟨"search_flights", "a"⟩, ⟨"CompleteOrEscalate", "b"⟩], none⟩], "", []⟩
      ⟨"ai", MsgContent.str "", [⟨"search_flights", "a"⟩, ⟨"CompleteOrEscalate", "b"⟩], none⟩
      rfl (by decide)
      ⟨⟨"CompleteOrEscalate", "b"⟩, by decide, rfl⟩).1

/-- C2: for each specialized router, when the last message has tool calls
and none is `CompleteOrEscalate`, the route is the safe-tool node exactly
when every call name lies in that assistant's safe set and the sensitive
node otherwise (the two node names being distinct, the outcomes are
mutually exclusive); with no tool calls at all, the route is the terminal
`END`. -/
theorem routers_safe_sensitive_partition (state : AgentState) (m : Message)
    (hm : state.messages.getLast? = some m) :
    (m.tool_calls = [] →
      route_update_flight state = Except.ok END ∧
      route_book_car_rental state = Except.ok END ∧
      route_book_hotel state = Except.ok END ∧
      route_book_excursion state = Except.ok END) ∧
    (m.tool_calls ≠ [] → (∀ tc ∈ m.tool_calls, tc.name ≠ CompleteOrEscalate_name) →
      (route_update_flight state = Except.ok
        (if m.tool_calls.all (fun tc => update_flight_safe_toolnames.contains tc.name)
         then "update_flight_safe_tools" else "update_flight_sensitive_tools")) ∧
      (route_book_car_rental state = Except.ok
        (if m.tool_calls.all (fun tc => book_car_rental_safe_toolnames.contains tc.name)
         then "book_car_rental_safe_tools" else "book_car_rental_sensitive_tools")) ∧
      (route_book_hotel state = Except.ok
        (if m.tool_calls.all (fun tc => book_hotel_safe_toolnames.contains tc.name)
         then "book_hotel_safe_tools" else "book_hotel_sensitive_tools")) ∧
      (route_book_excursion state = Except.ok
        (if m.tool_calls.all (fun tc => book_excursion_safe_toolnames.contains tc.name)
         then "book_excursion_safe_tools" else "book_excursion_sensitive_tools"))) ∧
    ("update_flight_safe_tools" : String) ≠ "update_flight_sensitive_tools" ∧
    ("book_car_rental_safe_tools" : String) ≠ "book_car_rental_sensitive_tools" ∧
    ("book_hotel_safe_tools" : String) ≠ "book_hotel_sensitive_tools" ∧
    ("book_excursion_safe_tools" : String) ≠ "book_excursion_sensitive_tools" := by
  have hlm := lastMessage_eq hm
  refine ⟨?_, ?_, by decide, by decide, by decide, by decide⟩
  · intro hz
    have hroute := tools_condition_of_nil hm hz
    refine ⟨?_, ?_, ?_, ?_⟩ <;>
      simp [route_update_flight, route_book_car_rental, route_book_hotel,
        route_book_excursion, hroute]
  · intro hnz hnesc
    have hroute := tools_condition_of_ne hm hnz
    have hnone : m.tool_calls.any (fun tc => tc.name == CompleteOrEscalate_name) = false := by
      rw [List.any_eq_false]
      intro tc htc
      simp [hnesc tc htc]
    refine ⟨?_, ?_, ?_, ?_⟩ <;>
      simp only [route_update_flight, route_book_car_rental, route_book_hotel,
        route_book_excursion, hroute, hlm, hnone] <;>
      simp [TOOLS, END] <;>
      split <;>
      simp_all

/-- Witness for C2: a message requesting only `search_flights` takes the
flight safe-tool node. -/
theorem routers_safe_sensitive_partition_witness :
    route_update_flight
      ⟨[⟨"ai", MsgContent.str "", [⟨"search_flights", "a"⟩], none⟩], "", []⟩ =
      Except.ok "update_flight_safe_tools" := by
  have h := ((routers_safe_sensitive_partition
      ⟨[⟨"ai", MsgContent.str "", [⟨"search_flights", "a"⟩], none⟩], "", []⟩
      ⟨"ai", MsgContent.str "", [⟨"search_flights", "a"⟩], none⟩
      rfl).2.1 (by decide) (by decide)).1
  simpa using h

/-- C7 counterexample: at a state whose last message has no tool calls
and empty content, `route_primary_assistant` does NOT raise — it returns
the terminal `END` route, because `tools_condition` already yields `END`
whenever no tool calls are pending, so the `raise ValueError("Invalid
route")` line is unreachable. -/
theorem route_primary_assistant_no_raise_cex :
    (lastMessage ⟨[⟨"ai", MsgContent.str "", [], none⟩], "", []⟩).tool_calls = [] ∧
    (lastMessage ⟨[⟨"ai", MsgContent.str "", [], none⟩], "", []⟩).content = MsgContent.str "" ∧
    route_primary_assistant ⟨[⟨"ai", MsgContent.str "", [], none⟩], "", []⟩ = Except.ok END := by
  exact ⟨rfl, rfl, rfl⟩

/-- C7 (amended): when the primary-assistant router sees a last message
with no tool calls — whatever its content — it returns the terminal `END`
route rather than raising; the `"Invalid route"` error is unreachable on
every state. -/
theorem route_primary_assistant_amended (state : AgentState) (m : Message)
    (hm : state.messages.getLast? = some m) :
    (m.tool_calls = [] → route_primary_assistant state = Except.ok END) ∧
    route_primary_assistant state ≠ Except.error "Invalid route" := by
  have hlm := lastMessage_eq hm
  constructor
  · intro hz
    have hroute := tools_condition_of_nil hm hz
    simp [route_primary_assistant, hroute]
  · cases hz : m.tool_calls with
    | nil =>
      have hroute := tools_condition_of_nil hm hz
      simp [route_primary_assistant, hroute]
    | cons tc rest =>
      have hroute := tools_condition_of_ne hm (by simp [hz])
      simp only [route_primary_assistant, hroute, hlm, hz]
      simp [TOOLS, END]
      intro h
      split at h <;> simp_all

/-- Witness for C7's amended theorem at a content-free, call-free last
message. -/
theorem route_primary_assistant_amended_witness :
    route_primary_assistant ⟨[⟨"ai", MsgContent.str "", [], none⟩], "", []⟩ = Except.ok END :=
  (route_primary_assistant_amended ⟨[⟨"ai", MsgContent.str "", [], none⟩], "", []⟩
      ⟨"ai", MsgContent.str "", [], none⟩ rfl).1 rfl

/-- The accumulator invariant of the `handle_multiple_tool_calls` loop:
the messages built so far grow by one acknowledgment per hand-off call,
and `next_route` is set by the first matching call only. -/
lemma hmtc_fold (tcs : List ToolCall) (ms : List Message) (route : Option String) :
    (tcs.foldl hmtc_step (ms, route)).1 =
      ms ++ (tcs.filter (fun tc => is_handoff tc.name)).map handoff_ack ∧
    (tcs.foldl hmtc_step (ms, route)).2 =
      (match route with
       | some r => some r
       | none => (tcs.find? (fun tc => is_handoff tc.name)).bind
           (fun tc => handoff_destination tc.name)) := by
  induction tcs generalizing ms route with
  | nil => cases route <;> simp
  | cons c rest ih =>
    have hflight : is_handoff "ToFlightBookingAssistant" = true := by decide
    have hcar : is_handoff "ToBookCarRental" = true := by decide
    have hhotel : is_handoff "ToHotelBookingAssistant" = true := by decide
    have hexc : is_handoff "ToBookExcursion" = true := by decide
    by_cases h1 : c.name = "ToFlightBookingAssistant"
    · cases route <;>
        simp [hmtc_step, h1, ih, hflight, handoff_ack, handoff_label,
          handoff_destination, List.find?]
    · by_cases h2 : c.name = "ToBookCarRental"
      · cases route <;>
          simp [hmtc_step, h1, h2, ih, hcar, handoff_ack, handoff_label,
            handoff_destination, List.find?]
      · by_cases h3 : c.name = "ToHotelBookingAssistant"
        · cases route <;>
            simp [hmtc_step, h1, h2, h3, ih, hhotel, handoff_ack, handoff_label,
              handoff_destination, List.find?]
        · by_cases h4 : c.name = "ToBookExcursion"
          · cases route <;>
              simp [hmtc_step, h1, h2, h3, h4, ih, hexc, handoff_ack, handoff_label,
                handoff_destination, List.find?]
          · have hno : is_handoff c.name = false := by
              simp [is_handoff, specialized_tools, h1, h2, h3, h4]
            cases route <;>
              simp [hmtc_step, h1, h2, h3, h4, ih, hno, List.find?]

/-- C5: the multi-intent disambiguator emits exactly one acknowledgment
tool-result per tool call whose name is one of the four hand-off request
types, in order and each paired to that call's id, and records as the
dialog-state push the destination of the FIRST matching hand-off in
original call order. -/
theorem handle_multiple_tool_calls_spec (state : AgentState) (m : Message)
    (hm : state.messages.getLast? = some m) :
    (handle_multiple_tool_calls state).messages =
      (m.tool_calls.filter (fun tc => is_handoff tc.name)).map handoff_ack ∧
    (handle_multiple_tool_calls state).messages.map (fun msg => msg.tool_call_id) =
      (m.tool_calls.filter (fun tc => is_handoff tc.name)).map (fun tc => some tc.id) ∧
    (handle_multiple_tool_calls state).dialog_state =
      (m.tool_calls.find? (fun tc => is_handoff tc.name)).bind
        (fun tc => handoff_destination tc.name) := by
  have hlm := lastMessage_eq hm
  have hfold := hmtc_fold m.tool_calls [] none
  refine ⟨?_, ?_, ?_⟩
  · simp [handle_multiple_tool_calls, hlm, hfold.1]
  · simp [handle_multiple_tool_calls, hlm, hfold.1, List.map_map,
      handoff_ack, ToolMessage, Function.comp]
  · simp [handle_multiple_tool_calls, hlm, hfold.2]

/-- Witness for C5: a message requesting `ToHotelBookingAssistant` then
`ToBookCarRental` routes to `"book_hotel"` and both calls are
acknowledged (in order, paired to their ids). -/
theorem handle_multiple_tool_calls_spec_witness :
    (handle_multiple_tool_calls
        ⟨[⟨"ai", MsgContent.str "", [⟨"ToHotelBookingAssistant", "h1"⟩, ⟨"ToBookCarRental", "c1"⟩], none⟩], "", []⟩).dialog_state =
      some "book_hotel" ∧
    (handle_multiple_tool_calls
        ⟨[⟨"ai", MsgContent.str "", [⟨"ToHotelBookingAssistant", "h1"⟩, ⟨"ToBookCarRental", "c1"⟩], none⟩], "", []⟩).messages.map
        (fun msg => msg.tool_call_id) = [some "h1", some "c1"] := by
  have h := handle_multiple_tool_calls_spec
    ⟨[⟨"ai", MsgContent.str "", [⟨"ToHotelBookingAssistant", "h1"⟩, ⟨"ToBookCarRental", "c1"⟩], none⟩], "", []⟩
    ⟨"ai", MsgContent.str "", [⟨"ToHotelBookingAssistant", "h1"⟩, ⟨"ToBookCarRental", "c1"⟩], none⟩
    rfl
  constructor
  · rw [h.2.2]
    decide
  · rw [h.2.1]
    decide

/-- The retry loop's unfolding: once the result oracle's prefix of
degenerate results is dropped, the first non-degenerate result is
returned, whatever state the caller passed. -/
lemma Assistant_call_of_dropWhile :
    ∀ (results : List Message) (r : Message) (rest : List Message),
      results.dropWhile degenerate = r :: rest →
      degenerate r = false ∧
      ∀ state : AgentState, Assistant_call results state =
        some { messages := [r], dialog_state := none } := by
  intro results
  induction results with
  | nil =>
    intro r rest h
    simp [List.dropWhile] at h
  | cons x xs ih =>
    intro r rest h
    cases hx : degenerate x with
    | true =>
      rw [List.dropWhile_cons, hx] at h
      simp at h
      obtain ⟨h1, h2⟩ := ih r rest h
      exact ⟨h1, fun state => by simp [Assistant_call, hx, h2]⟩
    | false =>
      rw [List.dropWhile_cons, hx] at h
      simp at h
      obtain ⟨rfl, rfl⟩ := h
      exact ⟨hx, fun state => by simp [Assistant_call, hx]⟩

/-- C8: for any sequence of model results ending in a non-degenerate one,
the assistant invoker returns an update holding exactly the first
non-degenerate result and nothing else; the corrective user messages of
the retries never appear in the update, and (the update being the same
for every caller state) nothing of the retry bookkeeping escapes into the
caller's state. -/
theorem Assistant_call_spec (results : List Message) (hne : results ≠ [])
    (hlast : degenerate (results.getLast hne) = false)
    (hroles : ∀ x ∈ results, x.role = "ai") :
    ∃ r rest, results.dropWhile degenerate = r :: rest ∧
      degenerate r = false ∧
      r ≠ corrective_message ∧
      ∀ state : AgentState, Assistant_call results state =
        some { messages := [r], dialog_state := none } := by
  have hnil : results.dropWhile degenerate ≠ [] := by
    intro h
    have hall := List.dropWhile_eq_nil_iff.mp h
    have hmem := List.getLast_mem hne
    have := hall _ hmem
    simp [hlast] at this
  obtain ⟨r, rest, hr⟩ : ∃ r rest, results.dropWhile degenerate = r :: rest := by
    cases h : results.dropWhile degenerate with
    | nil => exact absurd h hnil
    | cons a l => exact ⟨a, l, rfl⟩
  obtain ⟨hdeg, hcall⟩ := Assistant_call_of_dropWhile results r rest hr
  have hrmem : r ∈ results := by
    have hsub := List.dropWhile_sublist (l := results) (p := degenerate)
    rw [hr] at hsub
    exact hsub.mem (List.mem_cons_self r rest)
  have hrole := hroles r hrmem
  refine ⟨r, rest, hr, hdeg, ?_, hcall⟩
  intro hcontra
  rw [hcontra] at hrole
  simp [corrective_message] at hrole

/-- Witness for C8: a degenerate first result (no calls, empty content)
followed by a real answer yields an update holding only the answer. -/
theorem Assistant_call_spec_witness :
    Assistant_call
      [⟨"ai", MsgContent.str "", [], none⟩, ⟨"ai", MsgContent.str "Here is the answer.", [], none⟩]
      ⟨[], "", []⟩ =
      some { messages := [⟨"ai", MsgContent.str "Here is the answer.", [], none⟩],
             dialog_state := none } := by
  obtain ⟨r, rest, hr, -, -, hcall⟩ := Assistant_call_spec
    [⟨"ai", MsgContent.str "", [], none⟩, ⟨"ai", MsgContent.str "Here is the answer.", [], none⟩]
    (by decide) (by decide) (by decide)
  have hr2 : ([⟨"ai", MsgContent.str "", [], none⟩,
      ⟨"ai", MsgContent.str "Here is the answer.", [], none⟩] : List Message).dropWhile degenerate =
      [⟨"ai", MsgContent.str "Here is the answer.", [], none⟩] := by decide
  rw [hr2] at hr
  injection hr with h1 h2
  subst h1
  exact hcall ⟨[], "", []⟩
